import Mathlib

/-!
Verification development for the ASID (Address Space Identifier) management
subsystem: a shallow embedding of `ostd/src/mm/asid_allocation.rs`,
`ostd/src/mm/asid_profiling.rs`, `kernel/src/arch/x86/mm/pcid.rs`,
`kernel/src/process/process_ctx_id.rs` and
`kernel/src/syscall/asid_profiling.rs`, followed by theorems about the
embedded operations.

Machine integers are embedded as `Nat` with explicit reduction modulo
`2^w` exactly where the Rust code can wrap (atomic `fetch_add`/`fetch_sub`,
`wrapping_add`, `as u16` casts).  Fixed-width bit manipulation on `u64`
words uses `Nat` bitwise operators; the words are always `< 2^64` because
they are built from `0` by `or`-ing single bits below bit 64.
-/

/-- Numeric bound `u64::MAX`. -/
def U64_MAX : Nat := 18446744073709551615

/-- Modulus of `u64` arithmetic. -/
def U64_MOD : Nat := 18446744073709551616

/-- Modulus of `u32` arithmetic. -/
def U32_MOD : Nat := 4294967296

/-- Modulus of `u16` arithmetic. -/
def U16_MOD : Nat := 65536

/-- Embeds Rust `u64::trailing_zeros`: the index of the least significant set
bit of a `u64` word, and `64` when the word is `0`. -/
def trailingZeros64 (w : Nat) : Nat :=
  ((List.range 64).find? (fun k => w.testBit k)).getD 64

/-- Modelled from the spec: `ASID_CAP` is the architectural ceiling re-exported
from `crate::arch::mm` (the x86 architecture module is not part of the sources
under inspection); the spec fixes it to 4096 on x86_64 (12-bit PCIDs). -/
def ASID_CAP : Nat := 4096

/-- Source constant `ASID_FLUSH_REQUIRED = ASID_CAP`: the sentinel meaning
that the TLB must be flushed on every switch to this address space. -/
def ASID_FLUSH_REQUIRED : Nat := ASID_CAP

/-- Source constant `ASID_MIN = 1` (ASID 0 is reserved for the kernel). -/
def ASID_MIN : Nat := 1

/-- Length of the allocator bitmap in 64-bit words:
`(ASID_CAP - ASID_MIN).div_ceil(64)`.  The allocator is parameterised by the
architectural ceiling `cap` so that the spec scenarios (`ASID_CAP = 4`, `8`,
`4096`) are all expressible; the x86_64 instance uses `ASID_CAP = 4096`. -/
def bitmapLen (cap : Nat) : Nat := (cap - ASID_MIN + 63) / 64

/-- Per-ASID usage record of `asid_profiling.rs` (struct `AsidUsageStats`). -/
structure AsidUsageStats where
  allocation_count : Nat
  activation_count : Nat
  last_used_timestamp : Nat
  total_active_time : Nat
  tlb_flushes : Nat
deriving Repr, DecidableEq

/-- Rust `AsidUsageStats::default()`: all fields zero. -/
def AsidUsageStats.zero : AsidUsageStats :=
  ⟨0, 0, 0, 0, 0⟩

/-- The `BTreeMap<u16, AsidUsageStats>` of per-ASID records, embedded as an
association list (key order is irrelevant to the properties proved here). -/
def PerAsidMap : Type := List (Nat × AsidUsageStats)

instance : DecidableEq PerAsidMap := by
  unfold PerAsidMap
  infer_instance

/-- Embeds `per_asid.entry(asid).or_default()` followed by a mutation `f` of
the entry: update in place when present, insert `f` of the default record
otherwise. -/
def PerAsidMap.entryUpdate (m : PerAsidMap) (k : Nat) (f : AsidUsageStats → AsidUsageStats) :
    PerAsidMap :=
  match m with
  | [] => [(k, f AsidUsageStats.zero)]
  | (k0, v0) :: rest =>
    if k0 = k then (k0, f v0) :: rest
    else (k0, v0) :: PerAsidMap.entryUpdate rest k f

/-- Embeds `per_asid.get_mut(&asid)` followed by a mutation `f`: update in
place when present, no-op otherwise. -/
def PerAsidMap.updateIfPresent (m : PerAsidMap) (k : Nat) (f : AsidUsageStats → AsidUsageStats) :
    PerAsidMap :=
  match m with
  | [] => []
  | (k0, v0) :: rest =>
    if k0 = k then (k0, f v0) :: rest
    else (k0, v0) :: PerAsidMap.updateIfPresent rest k f

/-- The global profiling singleton `AsidStats` of `asid_profiling.rs`.
All atomic counters are embedded as `Nat` values reduced modulo their width
at each update. -/
structure AsidStats where
  allocations_total : Nat
  deallocations_total : Nat
  allocation_failures : Nat
  generation_rollovers : Nat
  asid_reuse_count : Nat
  bitmap_searches : Nat
  map_searches : Nat
  tlb_single_address_flushes : Nat
  tlb_single_context_flushes : Nat
  tlb_all_context_flushes : Nat
  tlb_full_flushes : Nat
  context_switches : Nat
  context_switches_with_flush : Nat
  vmspace_activations : Nat
  allocation_time_total : Nat
  deallocation_time_total : Nat
  tlb_flush_time_total : Nat
  context_switch_time_total : Nat
  active_asids : Nat
  current_generation : Nat
  pcid_enabled : Nat
  per_asid_stats : PerAsidMap
deriving DecidableEq

/-- Rust `AsidStats::new()`: every counter zero, empty per-ASID table. -/
def AsidStats.new : AsidStats :=
  { allocations_total := 0
    deallocations_total := 0
    allocation_failures := 0
    generation_rollovers := 0
    asid_reuse_count := 0
    bitmap_searches := 0
    map_searches := 0
    tlb_single_address_flushes := 0
    tlb_single_context_flushes := 0
    tlb_all_context_flushes := 0
    tlb_full_flushes := 0
    context_switches := 0
    context_switches_with_flush := 0
    vmspace_activations := 0
    allocation_time_total := 0
    deallocation_time_total := 0
    tlb_flush_time_total := 0
    context_switch_time_total := 0
    active_asids := 0
    current_generation := 0
    pcid_enabled := 0
    per_asid_stats := [] }

/-- Embeds `AsidStats::record_allocation(asid, time_cycles)`.  The ambient
`timestamp` stands for the nondeterministic `rdtsc` value read by
`get_timestamp` for the `last_used_timestamp` field. -/
def AsidStats.record_allocation (s : AsidStats) (asid time_cycles timestamp : Nat) : AsidStats :=
  { s with
    allocations_total := (s.allocations_total + 1) % U64_MOD
    allocation_time_total := (s.allocation_time_total + time_cycles) % U64_MOD
    active_asids := (s.active_asids + 1) % U32_MOD
    per_asid_stats :=
      s.per_asid_stats.entryUpdate asid (fun u =>
        { u with
          allocation_count := (u.allocation_count + 1) % U64_MOD
          last_used_timestamp := timestamp }) }

/-- Embeds `AsidStats::record_deallocation(asid, time_cycles)`; the
`fetch_sub(1)` on the `u32` counter `active_asids` wraps. -/
def AsidStats.record_deallocation (s : AsidStats) (_asid time_cycles : Nat) : AsidStats :=
  { s with
    deallocations_total := (s.deallocations_total + 1) % U64_MOD
    deallocation_time_total := (s.deallocation_time_total + time_cycles) % U64_MOD
    active_asids := (s.active_asids + U32_MOD - 1) % U32_MOD }

/-- Embeds `AsidStats::record_allocation_failure()`. -/
def AsidStats.record_allocation_failure (s : AsidStats) : AsidStats :=
  { s with allocation_failures := (s.allocation_failures + 1) % U64_MOD }

/-- Embeds `AsidStats::record_generation_rollover(new_generation)`. -/
def AsidStats.record_generation_rollover (s : AsidStats) (new_generation : Nat) : AsidStats :=
  { s with
    generation_rollovers := (s.generation_rollovers + 1) % U64_MOD
    current_generation := new_generation }

/-- Embeds `AsidStats::record_bitmap_search()`. -/
def AsidStats.record_bitmap_search (s : AsidStats) : AsidStats :=
  { s with bitmap_searches := (s.bitmap_searches + 1) % U64_MOD }

/-- Embeds `AsidStats::set_pcid_enabled(enabled)`. -/
def AsidStats.set_pcid_enabled (s : AsidStats) (enabled : Bool) : AsidStats :=
  { s with pcid_enabled := if enabled then 1 else 0 }

/-- Snapshot structure `AsidStatsReport` of `asid_profiling.rs`. -/
structure AsidStatsReport where
  allocations_total : Nat
  deallocations_total : Nat
  allocation_failures : Nat
  generation_rollovers : Nat
  bitmap_searches : Nat
  map_searches : Nat
  asid_reuse_count : Nat
  tlb_single_address_flushes : Nat
  tlb_single_context_flushes : Nat
  tlb_all_context_flushes : Nat
  tlb_full_flushes : Nat
  context_switches : Nat
  context_switches_with_flush : Nat
  vmspace_activations : Nat
  allocation_time_total : Nat
  deallocation_time_total : Nat
  tlb_flush_time_total : Nat
  context_switch_time_total : Nat
  active_asids : Nat
  current_generation : Nat
  pcid_enabled : Bool
  total_asids_used : Nat
  per_asid_stats : PerAsidMap
deriving DecidableEq

/-- Embeds `AsidStats::get_report()`: loads every counter and copies the
per-ASID table. -/
def AsidStats.get_report (s : AsidStats) : AsidStatsReport :=
  { allocations_total := s.allocations_total
    deallocations_total := s.deallocations_total
    allocation_failures := s.allocation_failures
    generation_rollovers := s.generation_rollovers
    bitmap_searches := s.bitmap_searches
    map_searches := s.map_searches
    asid_reuse_count := s.asid_reuse_count
    tlb_single_address_flushes := s.tlb_single_address_flushes
    tlb_single_context_flushes := s.tlb_single_context_flushes
    tlb_all_context_flushes := s.tlb_all_context_flushes
    tlb_full_flushes := s.tlb_full_flushes
    context_switches := s.context_switches
    context_switches_with_flush := s.context_switches_with_flush
    vmspace_activations := s.vmspace_activations
    allocation_time_total := s.allocation_time_total
    deallocation_time_total := s.deallocation_time_total
    tlb_flush_time_total := s.tlb_flush_time_total
    context_switch_time_total := s.context_switch_time_total
    active_asids := s.active_asids
    current_generation := s.current_generation
    pcid_enabled := s.pcid_enabled != 0
    total_asids_used := s.per_asid_stats.length
    per_asid_stats := s.per_asid_stats }

/-- Embeds `AsidStats::reset()`.  Faithful to the source: the eighteen
cumulative counters are stored to zero and the per-ASID table is cleared,
while `active_asids`, `current_generation` and `pcid_enabled` are not
touched by the function body. -/
def AsidStats.reset (s : AsidStats) : AsidStats :=
  { s with
    allocations_total := 0
    deallocations_total := 0
    allocation_failures := 0
    generation_rollovers := 0
    asid_reuse_count := 0
    bitmap_searches := 0
    map_searches := 0
    tlb_single_address_flushes := 0
    tlb_single_context_flushes := 0
    tlb_all_context_flushes := 0
    tlb_full_flushes := 0
    context_switches := 0
    context_switches_with_flush := 0
    vmspace_activations := 0
    allocation_time_total := 0
    deallocation_time_total := 0
    tlb_flush_time_total := 0
    context_switch_time_total := 0
    per_asid_stats := [] }

/-- The allocator state `AsidManager` of `asid_allocation.rs`: packed bitmap,
rotating next-fit cursor, current generation. -/
structure AsidManager where
  bitmap : List Nat
  next : Nat
  current_generation : Nat
deriving DecidableEq

/-- Rust `AsidManager::new()` for ceiling `cap`. -/
def AsidManager.new (cap : Nat) : AsidManager :=
  { bitmap := List.replicate (bitmapLen cap) 0
    next := ASID_MIN
    current_generation := 0 }

/-- Embeds the first loop of `find_and_set_free_bit` (indices from
`start / 64` to the end of the bitmap).  Faithful to the source: the word is
skipped when it equals `u64::MAX`; otherwise `bit` is
`word.trailing_zeros()` — the lowest set bit — and the candidate is taken
only when `bit < 64` and `asid <= ASID_CAP`.  On success the bit is or-ed
into the word, and the cursor becomes `(asid + 1) as u16`, reset to
`ASID_MIN` when it exceeds `ASID_CAP`.  Returns `(asid, bitmap, next)`. -/
def scanLoop1Aux (cap : Nat) (bitmap : List Nat) : Nat → Nat → Option (Nat × List Nat × Nat)
  | 0, _ => none
  | fuel + 1, i =>
    if h : i < bitmap.length then
      let word := bitmap.get ⟨i, h⟩
      if word ≠ U64_MAX then
        let bit := trailingZeros64 word
        if bit < 64 then
          let asid := ASID_MIN + i * 64 + bit
          if asid ≤ cap then
            let next0 := (asid + 1) % U16_MOD
            some (asid, bitmap.set i (word ||| (1 <<< bit)),
              if next0 > cap then ASID_MIN else next0)
          else scanLoop1Aux cap bitmap fuel (i + 1)
        else scanLoop1Aux cap bitmap fuel (i + 1)
      else scanLoop1Aux cap bitmap fuel (i + 1)
    else none

/-- The first loop of `find_and_set_free_bit`, entered at index `i`; the fuel
`bitmap.length - i` bounds the remaining iterations exactly. -/
def scanLoop1 (cap : Nat) (bitmap : List Nat) (i : Nat) : Option (Nat × List Nat × Nat) :=
  scanLoop1Aux cap bitmap (bitmap.length - i) i

/-- Embeds the second loop of `find_and_set_free_bit` (indices from `0` to
`stop = start / 64`).  Faithful to the source: no `asid <= ASID_CAP` bound
and no cursor wrap check; `bit` may be `64` (zero word), in which case the
Rust release build masks the shift amount (`1 << 64` becomes `1 << 0`),
embedded as `bit % 64`.  The `i < bitmap.length` guard mirrors the indexing
panic that cannot fire because `stop ≤ bitmap.length` in every reachable
state. -/
def scanLoop2Aux (cap : Nat) (bitmap : List Nat) (stop : Nat) :
    Nat → Nat → Option (Nat × List Nat × Nat)
  | 0, _ => none
  | fuel + 1, i =>
    if _hstop : i < stop then
      if h : i < bitmap.length then
        let word := bitmap.get ⟨i, h⟩
        if word ≠ U64_MAX then
          let bit := trailingZeros64 word
          let asid := ASID_MIN + i * 64 + bit
          some (asid, bitmap.set i (word ||| (1 <<< (bit % 64))), (asid + 1) % U16_MOD)
        else scanLoop2Aux cap bitmap stop fuel (i + 1)
      else none
    else none

/-- The second loop of `find_and_set_free_bit`, from index `0` up to `stop`. -/
def scanLoop2 (cap : Nat) (bitmap : List Nat) (stop i : Nat) : Option (Nat × List Nat × Nat) :=
  scanLoop2Aux cap bitmap stop (stop - i) i

/-- Embeds `AsidManager::find_and_set_free_bit`, including the
`record_bitmap_search` side effect on the global `ASID_STATS`. -/
def AsidManager.find_and_set_free_bit (cap : Nat) (m : AsidManager) (s : AsidStats) :
    Option Nat × AsidManager × AsidStats :=
  let s := s.record_bitmap_search
  let start := m.next - ASID_MIN
  match scanLoop1 cap m.bitmap (start / 64) with
  | some (asid, bitmap, next) => (some asid, { m with bitmap := bitmap, next := next }, s)
  | none =>
    match scanLoop2 cap m.bitmap (start / 64) 0 with
    | some (asid, bitmap, next) => (some asid, { m with bitmap := bitmap, next := next }, s)
    | none => (none, m, s)

/-- Embeds `AsidManager::increment_generation`: wrap the `u16` generation,
reset the bitmap and the cursor, record the rollover in the stats. -/
def AsidManager.increment_generation (cap : Nat) (m : AsidManager) (s : AsidStats) :
    AsidManager × AsidStats :=
  let g := (m.current_generation + 1) % U16_MOD
  ({ bitmap := List.replicate (bitmapLen cap) 0
     next := ASID_MIN
     current_generation := g },
   s.record_generation_rollover g)

/-- Embeds `AsidManager::allocate`: scan, and on failure roll the generation
over and scan again, returning `ASID_FLUSH_REQUIRED` (= `cap`) if even the
second scan fails. -/
def AsidManager.allocate (cap : Nat) (m : AsidManager) (s : AsidStats) :
    Nat × AsidManager × AsidStats :=
  match AsidManager.find_and_set_free_bit cap m s with
  | (some asid, m, s) => (asid, m, s)
  | (none, m, s) =>
    let (m, s) := AsidManager.increment_generation cap m s
    match AsidManager.find_and_set_free_bit cap m s with
    | (some asid, m, s) => (asid, m, s)
    | (none, m, s) => (cap, m, s)

/-- Embeds `AsidManager::deallocate` (the assert on the range holds at every
call site because the public wrapper checks it first). -/
def AsidManager.deallocate (m : AsidManager) (asid : Nat) : AsidManager :=
  let index := (asid - ASID_MIN) / 64
  let bit := (asid - ASID_MIN) % 64
  { m with bitmap := m.bitmap.set index ((m.bitmap.getD index 0) &&& (U64_MAX ^^^ (1 <<< bit))) }

/-- The combination of the two pieces of process-wide state touched by the
public allocation interface: the spinlocked `ASID_MANAGER` and the global
`ASID_STATS`. -/
structure AsidSystem where
  manager : AsidManager
  stats : AsidStats
deriving DecidableEq

/-- Initial system state: `AsidManager::new()` and `AsidStats::new()`. -/
def AsidSystem.init (cap : Nat) : AsidSystem :=
  { manager := AsidManager.new cap, stats := AsidStats.new }

/-- Embeds the public `allocate()` of `asid_allocation.rs`.  `time_cycles` is
the cycle delta measured by `profile_asid_operation!` and `timestamp` the
`rdtsc` value used for the per-ASID record; both are ambient
nondeterministic inputs. -/
def allocate (cap time_cycles timestamp : Nat) (sys : AsidSystem) : Nat × AsidSystem :=
  let (result, m, s) := AsidManager.allocate cap sys.manager sys.stats
  let s :=
    if result = cap then s.record_allocation_failure
    else s.record_allocation result time_cycles timestamp
  (result, { manager := m, stats := s })

/-- Embeds the public `deallocate(asid)` of `asid_allocation.rs`: no-op on
the sentinel; the bitmap is touched only for `asid` in
`ASID_MIN..ASID_CAP`, but `record_deallocation` runs for every non-sentinel
`asid`. -/
def deallocate (cap asid time_cycles : Nat) (sys : AsidSystem) : AsidSystem :=
  if asid = cap then sys
  else
    let m :=
      if ASID_MIN ≤ asid ∧ asid < cap then AsidManager.deallocate sys.manager asid
      else sys.manager
    { manager := m, stats := sys.stats.record_deallocation asid time_cycles }

/-- An operation of the public allocator interface, with its ambient timing
inputs. -/
inductive AsidOp where
  | alloc (time_cycles timestamp : Nat)
  | dealloc (asid time_cycles : Nat)
deriving DecidableEq

/-- A run of the system together with its observable history: the list of
values returned by `allocate()` (in order) and the ghost multiset of live
ASIDs — successful (non-sentinel) allocation results not yet passed to
`deallocate`. -/
structure AsidTrace where
  sys : AsidSystem
  rets : List Nat
  live : List Nat
deriving DecidableEq

/-- Initial trace. -/
def AsidTrace.init (cap : Nat) : AsidTrace :=
  { sys := AsidSystem.init cap, rets := [], live := [] }

/-- One public operation applied to a trace. -/
def AsidTrace.step (cap : Nat) (t : AsidTrace) : AsidOp → AsidTrace
  | AsidOp.alloc time_cycles timestamp =>
    let (r, sys) := allocate cap time_cycles timestamp t.sys
    { sys := sys
      rets := t.rets ++ [r]
      live := if r = cap then t.live else r :: t.live }
  | AsidOp.dealloc asid time_cycles =>
    { sys := deallocate cap asid time_cycles t.sys
      rets := t.rets
      live := t.live.erase asid }

/-- Runs a sequence of public operations from a trace. -/
def runOps (cap : Nat) (ops : List AsidOp) (t : AsidTrace) : AsidTrace :=
  ops.foldl (AsidTrace.step cap) t

/-- The trace invariant that every reachable state of the embedded system
satisfies: the allocator bitmap is identically zero and the cursor parked at
`ASID_MIN` (no allocation ever succeeds, see the claim C2 theorem),
hence no ASID is ever live and `allocations_total` stays `0`; and the
`u32` gauge `active_asids` agrees with
`allocations_total - deallocations_total` modulo `2^32`. -/
def StuckInv (cap : Nat) (t : AsidTrace) : Prop :=
  t.sys.manager.bitmap = List.replicate (bitmapLen cap) 0 ∧
  t.sys.manager.next = ASID_MIN ∧
  t.live = [] ∧
  t.sys.stats.allocations_total = 0 ∧
  ((t.sys.stats.active_asids : ZMod U32_MOD) =
    (t.sys.stats.allocations_total : ZMod U32_MOD) -
      (t.sys.stats.deallocations_total : ZMod U32_MOD))

/-- Flag bit `Cr3Flags::PAGE_LEVEL_WRITETHROUGH` (bit 3) of the external
`x86_64` crate. -/
def CR3_PAGE_LEVEL_WRITETHROUGH : Nat := 8

/-- Flag bit `Cr3Flags::PAGE_LEVEL_CACHE_DISABLE` (bit 4) of the external
`x86_64` crate. -/
def CR3_PAGE_LEVEL_CACHE_DISABLE : Nat := 16

/-- Embeds `Cr3Flags::from_bits_truncate` of the external `x86_64` crate:
only the bits of the defined flags (bits 3 and 4) are retained, every other
bit of the argument is dropped. -/
def cr3FlagsFromBitsTruncate (v : Nat) : Nat :=
  v &&& (CR3_PAGE_LEVEL_WRITETHROUGH ||| CR3_PAGE_LEVEL_CACHE_DISABLE)

/-- Source constant `PCID_CAP = 4096` of `pcid.rs` (12-bit PCIDs). -/
def PCID_CAP : Nat := 4096

/-- Source constant `PCID_INVALID = PCID_CAP` of `pcid.rs`. -/
def PCID_INVALID : Nat := PCID_CAP

/-- Embeds `set_cr3_with_pcid(page_table_addr, pcid)` of `pcid.rs`, returning
the value written to the page-table-base register CR3.  The ambient inputs
are the machine context read inside the function: `cr4_pcide` is whether
`Cr4::read()` has the PCIDE bit, `current_cr3_addr` the base address part of
`Cr3::read()`.  `Cr3::write(addr, flags)` stores the physical base or-ed
with the flag bits. -/
def set_cr3_with_pcid (page_table_addr pcid : Nat) (cr4_pcide : Bool)
    (current_cr3_addr : Nat) : Nat :=
  let pcid_flags :=
    if pcid = PCID_INVALID then 0 else cr3FlagsFromBitsTruncate (pcid &&& 0xFFF)
  let noflush :=
    if cr4_pcide then
      if current_cr3_addr = page_table_addr then CR3_PAGE_LEVEL_CACHE_DISABLE else 0
    else 0
  page_table_addr ||| (pcid_flags ||| noflush)

/-- The slot states of the process-context-ID manager
(`process_ctx_id.rs`). -/
inductive PcidState where
  | Free
  | Allocated
  | Active
deriving DecidableEq, Repr

/-- The INVPCID instruction kinds of `pcid.rs`. -/
inductive InvpcidType where
  | IndividualAddress
  | SingleContext
  | AllContextExceptGlobal
  | AllContext
deriving DecidableEq, Repr

/-- A privileged TLB-affecting hardware operation issued by the embedded
code: an INVPCID instruction with its descriptor contents, or the CR3-reload
fallback flush. -/
inductive TlbHwOp where
  | invpcidInstr (typ : InvpcidType) (pcid addr : Nat)
  | cr3ReloadFlush
deriving DecidableEq, Repr

/-- Embeds `invpcid(typ, pcid, addr)` of `pcid.rs` as the list of hardware
operations it issues: the INVPCID instruction when the CPU supports it,
otherwise the CR3-reload fallback. -/
def invpcid (invpcid_supported : Bool) (typ : InvpcidType) (pcid addr : Nat) : List TlbHwOp :=
  if invpcid_supported then [TlbHwOp.invpcidInstr typ pcid addr] else [TlbHwOp.cr3ReloadFlush]

/-- Embeds `invalidate_pcid(pcid)` of `pcid.rs`: a `SingleContext` INVPCID
with address `0`. -/
def invalidate_pcid (invpcid_supported : Bool) (pcid : Nat) : List TlbHwOp :=
  invpcid invpcid_supported InvpcidType.SingleContext pcid 0

/-- Modelled from the spec: the `IdAlloc` bitmap pool of the `id-alloc`
crate used by `ProcessCtxIdManager` is not among the sources under
inspection.  Per the spec the context-ID allocator layer is a bitmap pool;
`alloc` hands out the lowest free identifier (as the in-tree `ktest`
expects), `free` clears the bit, `is_allocated` reads it. -/
structure IdAlloc where
  bits : List Bool
deriving DecidableEq

/-- Modelled from the spec: `IdAlloc::with_capacity(n)`, all ids free. -/
def IdAlloc.with_capacity (n : Nat) : IdAlloc :=
  ⟨List.replicate n false⟩

/-- Modelled from the spec: `IdAlloc::alloc` returns the lowest free id and
marks it allocated, or `None` when the pool is exhausted. -/
def IdAlloc.alloc (a : IdAlloc) : Option Nat × IdAlloc :=
  match (List.range a.bits.length).find? (fun i => !(a.bits.getD i true)) with
  | some i => (some i, ⟨a.bits.set i true⟩)
  | none => (none, a)

/-- Modelled from the spec: `IdAlloc::free(id)`. -/
def IdAlloc.free (a : IdAlloc) (id : Nat) : IdAlloc :=
  ⟨a.bits.set id false⟩

/-- Modelled from the spec: `IdAlloc::is_allocated(id)`. -/
def IdAlloc.is_allocated (a : IdAlloc) (id : Nat) : Bool :=
  a.bits.getD id false

/-- The `ProcessCtxIdManager` of `process_ctx_id.rs`. -/
structure ProcessCtxIdManager where
  id_allocator : IdAlloc
  max_process_contexts : Nat
  pcid_states : List PcidState
  hw_pcid_supported : Bool
deriving DecidableEq

/-- Embeds `ProcessCtxIdManager::new(max_process_contexts)`;
`hw_pcid_supported` is the ambient result of the boot-time
`pcid::is_pcid_supported()` probe. -/
def ProcessCtxIdManager.new (max_process_contexts : Nat) (hw_pcid_supported : Bool) :
    ProcessCtxIdManager :=
  { id_allocator := IdAlloc.with_capacity max_process_contexts
    max_process_contexts := max_process_contexts
    pcid_states := List.replicate max_process_contexts PcidState.Free
    hw_pcid_supported := hw_pcid_supported }

/-- Embeds `ProcessCtxIdManager::is_allocated(id)`. -/
def ProcessCtxIdManager.is_allocated (mgr : ProcessCtxIdManager) (id : Nat) : Bool :=
  if mgr.max_process_contexts ≤ id then false
  else mgr.id_allocator.is_allocated id

/-- Embeds `ProcessCtxIdManager::allocate()`. -/
def ProcessCtxIdManager.allocate (mgr : ProcessCtxIdManager) :
    Option Nat × ProcessCtxIdManager :=
  match mgr.id_allocator.alloc with
  | (none, ia) => (none, { mgr with id_allocator := ia })
  | (some id, ia) =>
    if mgr.pcid_states.length ≤ id then (some id, { mgr with id_allocator := ia })
    else
      (some id,
       { mgr with
         id_allocator := ia
         pcid_states := mgr.pcid_states.set id PcidState.Allocated })

/-- Embeds `ProcessCtxIdManager::activate(id)`. -/
def ProcessCtxIdManager.activate (mgr : ProcessCtxIdManager) (id : Nat) :
    Option ProcessCtxIdManager :=
  if mgr.is_allocated id = false ∨ mgr.max_process_contexts ≤ id then none
  else if id < mgr.pcid_states.length then
    some { mgr with pcid_states := mgr.pcid_states.set id PcidState.Active }
  else some mgr

/-- Embeds `ProcessCtxIdManager::deactivate(id)` together with the list of
hardware TLB operations it issues.  Faithful to the source: the guard only
requires the id to be allocated in the id-allocator (the slot state is not
inspected), the slot is set to `Allocated`, and when hardware PCID support
was detected at boot `invalidate_pcid(id)` runs unconditionally — also when
the slot was already merely `Allocated`.  No profiling counter is touched on
any path (neither `deactivate` nor `invalidate_pcid`/`invpcid` reference
`ASID_STATS`). -/
def ProcessCtxIdManager.deactivate (mgr : ProcessCtxIdManager) (invpcid_supported : Bool)
    (id : Nat) : Option (ProcessCtxIdManager × List TlbHwOp) :=
  if mgr.is_allocated id = false ∨ mgr.max_process_contexts ≤ id then none
  else if id < mgr.pcid_states.length then
    some ({ mgr with pcid_states := mgr.pcid_states.set id PcidState.Allocated },
      if mgr.hw_pcid_supported then invalidate_pcid invpcid_supported id else [])
  else some (mgr, [])

/-- Embeds `ProcessCtxIdManager::is_active(id)`. -/
def ProcessCtxIdManager.is_active (mgr : ProcessCtxIdManager) (id : Nat) : Bool :=
  if mgr.max_process_contexts ≤ id then false
  else if id < mgr.pcid_states.length then
    if mgr.pcid_states.getD id PcidState.Free = PcidState.Active then true else false
  else false

/-- Syscall-level error codes surfaced by `sys_asid_profiling`; the syscall
dispatcher turns `Errno::EINVAL` into the return value `-EINVAL`. -/
inductive Errno where
  | EINVAL
  | EFAULT
deriving DecidableEq, Repr

/-- Alignment helper for `repr(C)` layout: round `off` up to a multiple of
`a`. -/
def alignUp (off a : Nat) : Nat :=
  ((off + a - 1) / a) * a

/-- Size of a `repr(C)` struct given the `(size, alignment)` of each field in
declaration order: fields are laid out at aligned offsets and the total is
rounded up to the maximal alignment. -/
def reprCSize (fields : List (Nat × Nat)) : Nat :=
  let p := fields.foldl (fun (p : Nat × Nat) f => (alignUp p.1 f.2 + f.1, max p.2 f.2)) (0, 1)
  alignUp p.1 p.2

/-- Field layout of `AsidStatsUserspace` (`syscall/asid_profiling.rs`):
eighteen `u64`, then `active_asids: u32`, `current_generation: u16`,
`pcid_enabled: u32`, `total_asids_used: u32`. -/
def asidStatsUserspaceFields : List (Nat × Nat) :=
  List.replicate 18 (8, 8) ++ [(4, 4), (2, 2), (4, 4), (4, 4)]

/-- Rust `core::mem::size_of::<AsidStatsUserspace>()`. -/
def sizeOfAsidStatsUserspace : Nat :=
  reprCSize asidStatsUserspaceFields

/-- Field layout of `AsidEfficiencyUserspace`: five `u64`. -/
def asidEfficiencyUserspaceFields : List (Nat × Nat) :=
  List.replicate 5 (8, 8)

/-- Rust `core::mem::size_of::<AsidEfficiencyUserspace>()`. -/
def sizeOfAsidEfficiencyUserspace : Nat :=
  reprCSize asidEfficiencyUserspaceFields

/-- Embeds the control flow of `sys_asid_profiling(action, buffer,
buffer_len)`.  The copy-out to user memory through `current_userspace!` is
abstracted by the oracle `write_ok` (the kernel user-memory accessors are
not among the sources under inspection): when it is `false`, the first
field write fails and the syscall surfaces `EFAULT`.  The counter values
written for actions 0 and 3 do not influence the return value and are not
tracked here. -/
def sys_asid_profiling (action buffer_len : Nat) (write_ok : Bool) : Except Errno Int :=
  match action with
  | 0 =>
    if buffer_len < sizeOfAsidStatsUserspace then Except.error Errno.EINVAL
    else if write_ok then Except.ok (sizeOfAsidStatsUserspace : Int)
    else Except.error Errno.EFAULT
  | 1 => Except.ok 0
  | 2 => Except.ok 0
  | 3 =>
    if buffer_len < sizeOfAsidEfficiencyUserspace then Except.error Errno.EINVAL
    else if write_ok then Except.ok (sizeOfAsidEfficiencyUserspace : Int)
    else Except.error Errno.EFAULT
  | _ => Except.error Errno.EINVAL

/-- Rust `u64::trailing_zeros(0) == 64`. -/
theorem trailingZeros64_zero : trailingZeros64 0 = 64 := by decide

example : trailingZeros64 7 = 0 := by decide

/-- A zero word is not `u64::MAX`. -/
theorem zero_ne_u64max : (0 : Nat) ≠ U64_MAX := by decide

/-- The first scan loop never returns anything on an all-zero bitmap: with
`word = 0`, `word.trailing_zeros()` is `64`, so the `bit < 64` test fails
and the word is skipped. -/
theorem scanLoop1Aux_zeros (cap L : Nat) :
    ∀ fuel i, scanLoop1Aux cap (List.replicate L 0) fuel i = none := by
  intro fuel
  induction fuel with
  | zero => intro i; rfl
  | succ n ih =>
    intro i
    simp only [scanLoop1Aux]
    split
    · next h =>
      simp only [List.get_eq_getElem, List.getElem_replicate, trailingZeros64_zero]
      rw [if_pos zero_ne_u64max, if_neg (by decide : ¬ (64 < 64))]
      exact ih (i + 1)
    · rfl

/-- The first scan loop, entered anywhere, fails on an all-zero bitmap. -/
theorem scanLoop1_zeros (cap L i : Nat) :
    scanLoop1 cap (List.replicate L 0) i = none :=
  scanLoop1Aux_zeros cap L _ i

/-- The second scan loop with `stop = 0` is empty. -/
theorem scanLoop2_stop_zero (cap : Nat) (bitmap : List Nat) :
    scanLoop2 cap bitmap 0 0 = none := rfl

/-- On the all-zero bitmap with the cursor at `ASID_MIN`,
`find_and_set_free_bit` fails and only records the bitmap search. -/
theorem find_and_set_free_bit_zeros (cap g : Nat) (s : AsidStats) :
    AsidManager.find_and_set_free_bit cap
      { bitmap := List.replicate (bitmapLen cap) 0, next := ASID_MIN, current_generation := g }
      s =
      (none,
       { bitmap := List.replicate (bitmapLen cap) 0, next := ASID_MIN, current_generation := g },
       s.record_bitmap_search) := by
  unfold AsidManager.find_and_set_free_bit
  simp only [Nat.sub_self, Nat.zero_div, scanLoop1_zeros, scanLoop2_stop_zero]

/-- On the all-zero bitmap with the cursor at `ASID_MIN`, `allocate` of the
manager fails both scans, rolls the generation over once in between, and
returns the sentinel `cap`. -/
theorem AsidManager_allocate_zeros (cap g : Nat) (s : AsidStats) :
    AsidManager.allocate cap
      { bitmap := List.replicate (bitmapLen cap) 0, next := ASID_MIN, current_generation := g }
      s =
      (cap,
       { bitmap := List.replicate (bitmapLen cap) 0, next := ASID_MIN,
         current_generation := (g + 1) % U16_MOD },
       ((s.record_bitmap_search).record_generation_rollover
           ((g + 1) % U16_MOD)).record_bitmap_search) := by
  unfold AsidManager.allocate AsidManager.increment_generation
  rw [find_and_set_free_bit_zeros]
  simp only []
  rw [find_and_set_free_bit_zeros]

/-- The public `allocate()` from any state whose manager is stuck at the
all-zero bitmap with cursor `ASID_MIN`: the result is the sentinel, one
generation rollover and one allocation failure are recorded, and the
manager returns to the same stuck shape. -/
theorem allocate_stuck (cap time_cycles timestamp : Nat) (sys : AsidSystem)
    (hb : sys.manager.bitmap = List.replicate (bitmapLen cap) 0)
    (hn : sys.manager.next = ASID_MIN) :
    allocate cap time_cycles timestamp sys =
      (cap,
       { manager :=
           { bitmap := List.replicate (bitmapLen cap) 0, next := ASID_MIN,
             current_generation := (sys.manager.current_generation + 1) % U16_MOD }
         stats :=
           (((sys.stats.record_bitmap_search).record_generation_rollover
               ((sys.manager.current_generation + 1) % U16_MOD)).record_bitmap_search).record_allocation_failure }) := by
  obtain ⟨⟨bm, nx, g⟩, s⟩ := sys
  simp only [] at hb hn
  subst hb hn
  unfold allocate
  rw [AsidManager_allocate_zeros]
  simp

/-- Replicated zero words read back as zero under `getD`. -/
theorem getD_replicate_zero : ∀ (n i : Nat), (List.replicate n (0 : Nat)).getD i 0 = 0 := by
  intro n
  induction n with
  | zero => intro i; cases i <;> rfl
  | succ m ih =>
    intro i
    cases i with
    | zero => rfl
    | succ j =>
      simp only [List.replicate_succ, List.getD_cons_succ]
      exact ih j

/-- `AsidManager::deallocate` cannot change a manager whose bitmap is all
zero: clearing a bit of a zero word yields a zero word. -/
theorem AsidManager_deallocate_zeros (cap asid : Nat) (m : AsidManager)
    (hb : m.bitmap = List.replicate (bitmapLen cap) 0) :
    AsidManager.deallocate m asid = m := by
  obtain ⟨bm, nx, g⟩ := m
  simp only [] at hb
  subst hb
  unfold AsidManager.deallocate
  simp only [getD_replicate_zero, Nat.zero_and, List.set_replicate_self]

/-- Divisibility of the `u64` modulus by the `u32` modulus. -/
theorem u32_dvd_u64 : U32_MOD ∣ U64_MOD :=
  ⟨4294967296, by norm_num [U32_MOD, U64_MOD]⟩

/-- Casting a `u32`-wrapped value into `ZMod U32_MOD` drops the wrap. -/
theorem natCast_mod_u32 (x : Nat) : (((x % U32_MOD : Nat)) : ZMod U32_MOD) = (x : ZMod U32_MOD) :=
  ZMod.natCast_mod x U32_MOD

/-- Casting a `u64`-wrapped value into `ZMod U32_MOD` drops the wrap. -/
theorem natCast_mod_u64 (x : Nat) : (((x % U64_MOD : Nat)) : ZMod U32_MOD) = (x : ZMod U32_MOD) := by
  conv_lhs => rw [← natCast_mod_u32 (x % U64_MOD)]
  rw [Nat.mod_mod_of_dvd x u32_dvd_u64, natCast_mod_u32]

/-- The wrapping `fetch_sub(1)` on a `u32` counter is subtraction of one in
`ZMod U32_MOD`. -/
theorem natCast_fetch_sub_one (a : Nat) :
    (((a + U32_MOD - 1) % U32_MOD : Nat) : ZMod U32_MOD) = (a : ZMod U32_MOD) - 1 := by
  rw [natCast_mod_u32]
  have h1 : a + U32_MOD - 1 = a + (U32_MOD - 1) := by
    have : 1 ≤ U32_MOD := by norm_num [U32_MOD]
    omega
  have h2 : ((U32_MOD - 1 : Nat) : ZMod U32_MOD) = -1 := by
    have h3 : ((U32_MOD - 1 : Nat) : ZMod U32_MOD) + 1 = 0 := by
      have h4 : ((U32_MOD - 1 : Nat) : ZMod U32_MOD) + ((1 : Nat) : ZMod U32_MOD) =
          (((U32_MOD - 1) + 1 : Nat) : ZMod U32_MOD) := (Nat.cast_add _ _).symm
      have h5 : (U32_MOD - 1) + 1 = U32_MOD := by
        have : 1 ≤ U32_MOD := by norm_num [U32_MOD]
        omega
      rw [Nat.cast_one] at h4
      rw [h4, h5, ZMod.natCast_self]
    exact eq_neg_of_add_eq_zero_left h3
  rw [h1, Nat.cast_add, h2]
  ring

/-- The public `deallocate()` of the sentinel value is a no-op. -/
theorem deallocate_sentinel (cap time_cycles : Nat) (sys : AsidSystem) :
    deallocate cap cap time_cycles sys = sys := by
  unfold deallocate
  exact if_pos rfl

/-- The public `deallocate()` of any non-sentinel value on a system whose
bitmap is all zero: the manager is unchanged and `record_deallocation`
runs. -/
theorem deallocate_stuck (cap asid time_cycles : Nat) (sys : AsidSystem)
    (hb : sys.manager.bitmap = List.replicate (bitmapLen cap) 0) (hc : asid ≠ cap) :
    deallocate cap asid time_cycles sys =
      { manager := sys.manager, stats := sys.stats.record_deallocation asid time_cycles } := by
  unfold deallocate
  rw [if_neg hc]
  by_cases hr : ASID_MIN ≤ asid ∧ asid < cap
  · simp only [if_pos hr, AsidManager_deallocate_zeros cap asid sys.manager hb]
  · simp only [if_neg hr]

/-- One public operation preserves the stuck-system invariant. -/
theorem step_preserves_stuckInv (cap : Nat) (t : AsidTrace) (op : AsidOp)
    (h : StuckInv cap t) : StuckInv cap (t.step cap op) := by
  obtain ⟨hb, hn, hl, ha, hz⟩ := h
  cases op with
  | alloc time_cycles timestamp =>
    simp only [AsidTrace.step]
    rw [allocate_stuck cap time_cycles timestamp t.sys hb hn]
    refine ⟨rfl, rfl, ?_, ?_, ?_⟩
    · simp [hl]
    · exact ha
    · simp only [AsidStats.record_bitmap_search, AsidStats.record_generation_rollover,
        AsidStats.record_allocation_failure]
      exact hz
  | dealloc asid time_cycles =>
    simp only [AsidTrace.step]
    by_cases hc : asid = cap
    · subst hc
      rw [deallocate_sentinel]
      exact ⟨hb, hn, by simp [hl], ha, hz⟩
    · rw [deallocate_stuck cap asid time_cycles t.sys hb hc]
      refine ⟨hb, hn, by simp [hl], ?_, ?_⟩
      · simp only [AsidStats.record_deallocation]
        exact ha
      · simp only [AsidStats.record_deallocation]
        rw [natCast_fetch_sub_one, natCast_mod_u64, Nat.cast_add, Nat.cast_one, hz]
        ring

/-- Any run of public operations preserves the stuck-system invariant. -/
theorem runOps_preserves_stuckInv (cap : Nat) (ops : List AsidOp) :
    ∀ t, StuckInv cap t → StuckInv cap (runOps cap ops t) := by
  induction ops with
  | nil => intro t h; exact h
  | cons op rest ih =>
    intro t h
    show StuckInv cap (List.foldl (AsidTrace.step cap) t (op :: rest))
    rw [List.foldl_cons]
    exact ih _ (step_preserves_stuckInv cap t op h)

/-- The initial state satisfies the stuck-system invariant. -/
theorem init_stuckInv (cap : Nat) : StuckInv cap (AsidTrace.init cap) := by
  refine ⟨rfl, rfl, rfl, rfl, ?_⟩
  simp [AsidTrace.init, AsidSystem.init, AsidStats.new]

/-- Every run of public operations from the initial state satisfies the
stuck-system invariant. -/
theorem runOps_stuckInv (cap : Nat) (ops : List AsidOp) :
    StuckInv cap (runOps cap ops (AsidTrace.init cap)) :=
  runOps_preserves_stuckInv cap ops _ (init_stuckInv cap)

example :
    (allocate 4 0 0 (AsidSystem.init 4)).1 = 4 := by decide

example :
    (runOps 4 [AsidOp.alloc 0 0, AsidOp.alloc 0 0] (AsidTrace.init 4)).rets = [4, 4] := by
  decide

/-- Claim C1: the spec (P2, scenario S2) requires that saturating the pool
records exactly one generation rollover while the allocate calls return
valid IDs.  The embedded code diverges already in scenario S2's
configuration (`ASID_CAP = 4, ASID_MIN = 1`): because
`find_and_set_free_bit` takes `word.trailing_zeros()` — the lowest set bit
— instead of the lowest clear bit, and skips all-zero words, every one of
four consecutive `allocate()` calls fails, records its own rollover, and
returns the sentinel `4` instead of the IDs `[1, 2, 3]` and a single
rollover. -/
theorem claim_C1_code_divergence :
    (runOps 4 (List.replicate 4 (AsidOp.alloc 0 0)) (AsidTrace.init 4)).rets = [4, 4, 4, 4] ∧
    (runOps 4 (List.replicate 4 (AsidOp.alloc 0 0))
        (AsidTrace.init 4)).sys.stats.generation_rollovers = 4 ∧
    (runOps 4 (List.replicate 4 (AsidOp.alloc 0 0))
        (AsidTrace.init 4)).sys.stats.allocations_total = 0 ∧
    (runOps 4 (List.replicate 4 (AsidOp.alloc 0 0))
        (AsidTrace.init 4)).sys.stats.allocation_failures = 4 := by
  decide

/-- Claim C2: the claim requires every public `allocate()` under
`ASID_CAP > ASID_MIN` to return a value in `[ASID_MIN, ASID_CAP)` and never
`ASID_FLUSH_REQUIRED`.  The embedded code refutes this at the very first
call in the real x86_64 configuration (`ASID_CAP = 4096 > 1 = ASID_MIN`):
the scan of the all-zero bitmap finds no word whose lowest set bit exists
(`trailing_zeros` of `0` is `64`), so both scans fail and the call returns
the sentinel `ASID_FLUSH_REQUIRED = 4096`. -/
theorem claim_C2_code_divergence :
    ASID_MIN < ASID_CAP ∧
    (allocate ASID_CAP 0 0 (AsidSystem.init ASID_CAP)).1 = ASID_FLUSH_REQUIRED := by
  decide

/-- Claim C3: the claim requires the CR3 value written by
`set_cr3_with_pcid` to carry the ASID in bits 0–11 and, when the no-flush
hint applies (PCIDE enabled, same page table already installed), bit 63.
The embedded code refutes both parts at `page_table_addr = 0x1000`,
`pcid = 1` (valid: `1 < 4096` and not the invalid sentinel) with PCIDE on
and the same page table installed: the written value is `0x1010`, whose low
12 bits are `16` (only the `Cr3Flags`-defined bits 3–4 of the PCID survive
`from_bits_truncate`, or-ed with `PAGE_LEVEL_CACHE_DISABLE` used as the
"no-flush" flag) instead of `1`, and bit 63 is clear. -/
theorem claim_C3_code_divergence :
    set_cr3_with_pcid 4096 1 true 4096 = 4112 ∧
    (set_cr3_with_pcid 4096 1 true 4096) % 4096 = 16 ∧
    (set_cr3_with_pcid 4096 1 true 4096).testBit 63 = false ∧
    (1 : Nat) < PCID_CAP ∧ (1 : Nat) ≠ PCID_INVALID := by
  decide

/-- Claim C4: for every sequence of public `allocate()`/`deallocate()` calls
whose net allocations (simultaneously live, i.e. successfully allocated and
not yet deallocated, ASIDs) never exceed `ASID_CAP - ASID_MIN`, no two
simultaneously-live ASIDs are equal.  This holds of the embedded code — in
fact degenerately, because no `allocate()` call ever returns a non-sentinel
ID (see the claim C2 theorem), so the live multiset stays empty. -/
theorem claim_C4_no_duplicate_live (cap : Nat) (ops : List AsidOp)
    (_hnet : ∀ n, n ≤ ops.length →
      (runOps cap (ops.take n) (AsidTrace.init cap)).live.length ≤ cap - ASID_MIN) :
    (runOps cap ops (AsidTrace.init cap)).live.Nodup := by
  have h := runOps_stuckInv cap ops
  rw [h.2.2.1]
  exact List.nodup_nil

/-- Witness for the claim C4 theorem at the concrete configuration
`cap = 4` and the two-operation sequence allocate-then-deallocate. -/
theorem claim_C4_no_duplicate_live_witness :
    (∀ n, n ≤ ([AsidOp.alloc 0 0, AsidOp.dealloc 1 0] : List AsidOp).length →
      (runOps 4 (([AsidOp.alloc 0 0, AsidOp.dealloc 1 0] : List AsidOp).take n)
          (AsidTrace.init 4)).live.length ≤ 4 - ASID_MIN) ∧
    (runOps 4 [AsidOp.alloc 0 0, AsidOp.dealloc 1 0] (AsidTrace.init 4)).live.Nodup :=
  ⟨by decide, claim_C4_no_duplicate_live 4 [AsidOp.alloc 0 0, AsidOp.dealloc 1 0] (by decide)⟩

/-- Claim C5 counterexample: after the single operation `deallocate(1)` from
the initial state, `record_deallocation` wraps the `u32` gauge to
`4294967295` while `allocations_total - deallocations_total = 0 - 1`, so
the claimed equality `active_asids == allocations_total -
deallocations_total` fails after this operation. -/
theorem claim_C5_counterexample :
    (runOps ASID_CAP [AsidOp.dealloc 1 0] (AsidTrace.init ASID_CAP)).sys.stats.active_asids
      = 4294967295 ∧
    (runOps ASID_CAP [AsidOp.dealloc 1 0] (AsidTrace.init ASID_CAP)).sys.stats.allocations_total
      = 0 ∧
    (runOps ASID_CAP [AsidOp.dealloc 1 0] (AsidTrace.init ASID_CAP)).sys.stats.deallocations_total
      = 1 ∧
    (((runOps ASID_CAP [AsidOp.dealloc 1 0]
          (AsidTrace.init ASID_CAP)).sys.stats.active_asids : Int) ≠
      ((runOps ASID_CAP [AsidOp.dealloc 1 0]
          (AsidTrace.init ASID_CAP)).sys.stats.allocations_total : Int) -
        ((runOps ASID_CAP [AsidOp.dealloc 1 0]
            (AsidTrace.init ASID_CAP)).sys.stats.deallocations_total : Int)) := by
  decide

/-- Claim C5 amended: after every sequence of public operations the `u32`
gauge `active_asids` equals `allocations_total - deallocations_total`
reduced modulo `2^32`; the exact equality of the claim holds only while the
difference is non-negative and below `2^32`. -/
theorem claim_C5_amended_congruence (cap : Nat) (ops : List AsidOp) :
    ((runOps cap ops (AsidTrace.init cap)).sys.stats.active_asids : ZMod U32_MOD) =
      ((runOps cap ops (AsidTrace.init cap)).sys.stats.allocations_total : ZMod U32_MOD) -
        ((runOps cap ops (AsidTrace.init cap)).sys.stats.deallocations_total : ZMod U32_MOD) :=
  (runOps_stuckInv cap ops).2.2.2.2

/-- Claim C6 counterexample: a freshly allocated context ID (slot state
`Allocated`, not `Active`) is deactivated on a manager with hardware PCID
support, and the call issues a `SingleContext` INVPCID anyway — the claim
says no INVPCID may be issued when the slot was already merely
`Allocated`.  (No profiling counter records the event either: no code path
of `deactivate`/`invalidate_pcid` touches `ASID_STATS`.) -/
theorem claim_C6_counterexample :
    ((ProcessCtxIdManager.new 4 true).allocate.2).is_active 0 = false ∧
    ((ProcessCtxIdManager.new 4 true).allocate.2).is_allocated 0 = true ∧
    (((ProcessCtxIdManager.new 4 true).allocate.2).deactivate true 0).map Prod.snd
      = some [TlbHwOp.invpcidInstr InvpcidType.SingleContext 0 0] := by
  decide

/-- Claim C6 amended: `deactivate(id)` requires only that `id` be allocated
in the id-allocator (the slot state, `Allocated` or `Active`, is not
inspected); it sets the slot to `Allocated` and, whenever hardware PCID
support was detected at boot, issues the `invalidate_pcid(id)` operation
(one `SingleContext` INVPCID, or the CR3-reload fallback without INVPCID
support) on every successful call — including when the slot was merely
`Allocated`.  No profiling counter is updated on any path. -/
theorem claim_C6_deactivate_amended (mgr : ProcessCtxIdManager) (invpcid_supported : Bool)
    (id : Nat) (halloc : mgr.is_allocated id = true) (hlen : id < mgr.pcid_states.length) :
    mgr.deactivate invpcid_supported id =
      some ({ mgr with pcid_states := mgr.pcid_states.set id PcidState.Allocated },
        if mgr.hw_pcid_supported then invalidate_pcid invpcid_supported id else []) := by
  have hmax : ¬ mgr.max_process_contexts ≤ id := by
    intro hmax
    unfold ProcessCtxIdManager.is_allocated at halloc
    rw [if_pos hmax] at halloc
    exact Bool.false_ne_true halloc
  unfold ProcessCtxIdManager.deactivate
  rw [if_neg (not_or.mpr ⟨by simp [halloc], hmax⟩), if_pos hlen]

/-- Witness for the claim C6 amended theorem at the concrete manager with
capacity 4, hardware PCID support detected, and the freshly allocated id
`0`. -/
theorem claim_C6_deactivate_amended_witness :
    ((ProcessCtxIdManager.new 4 true).allocate.2).is_allocated 0 = true ∧
    ((ProcessCtxIdManager.new 4 true).allocate.2).deactivate true 0 =
      some ({ (ProcessCtxIdManager.new 4 true).allocate.2 with
              pcid_states :=
                ((ProcessCtxIdManager.new 4 true).allocate.2).pcid_states.set 0
                  PcidState.Allocated },
        if ((ProcessCtxIdManager.new 4 true).allocate.2).hw_pcid_supported then
          invalidate_pcid true 0
        else []) :=
  ⟨by decide, claim_C6_deactivate_amended ((ProcessCtxIdManager.new 4 true).allocate.2)
    true 0 (by decide) (by decide)⟩

/-- Claim C7 counterexample: `reset()` does not store zero to
`active_asids`, `current_generation` or `pcid_enabled`.  From the reachable
state after one `allocate()` call (which rolls the generation over to `1`),
a reset followed by `get_report()` still shows `current_generation = 1`;
likewise a reset after `set_pcid_enabled(true)` still reports the PCID flag
set — refuting the claim that the snapshot after a reset is the all-zero
counter record. -/
theorem claim_C7_counterexample :
    ((AsidStats.reset
        (runOps ASID_CAP [AsidOp.alloc 0 0]
          (AsidTrace.init ASID_CAP)).sys.stats).get_report).current_generation = 1 ∧
    (((AsidStats.new.set_pcid_enabled true).reset).get_report).pcid_enabled = true := by
  decide

/-- Claim C7 amended: a `get_report()` snapshot immediately after `reset()`
shows zero for the eighteen cumulative counters and an empty per-ASID table
(hence `total_asids_used = 0`), while the three state gauges
`active_asids`, `current_generation` and `pcid_enabled` keep their
pre-reset values. -/
theorem claim_C7_reset_amended (s : AsidStats) :
    (s.reset.get_report).allocations_total = 0 ∧
    (s.reset.get_report).deallocations_total = 0 ∧
    (s.reset.get_report).allocation_failures = 0 ∧
    (s.reset.get_report).generation_rollovers = 0 ∧
    (s.reset.get_report).asid_reuse_count = 0 ∧
    (s.reset.get_report).bitmap_searches = 0 ∧
    (s.reset.get_report).map_searches = 0 ∧
    (s.reset.get_report).tlb_single_address_flushes = 0 ∧
    (s.reset.get_report).tlb_single_context_flushes = 0 ∧
    (s.reset.get_report).tlb_all_context_flushes = 0 ∧
    (s.reset.get_report).tlb_full_flushes = 0 ∧
    (s.reset.get_report).context_switches = 0 ∧
    (s.reset.get_report).context_switches_with_flush = 0 ∧
    (s.reset.get_report).vmspace_activations = 0 ∧
    (s.reset.get_report).allocation_time_total = 0 ∧
    (s.reset.get_report).deallocation_time_total = 0 ∧
    (s.reset.get_report).tlb_flush_time_total = 0 ∧
    (s.reset.get_report).context_switch_time_total = 0 ∧
    (s.reset.get_report).per_asid_stats = [] ∧
    (s.reset.get_report).total_asids_used = 0 ∧
    (s.reset.get_report).active_asids = s.active_asids ∧
    (s.reset.get_report).current_generation = s.current_generation ∧
    (s.reset.get_report).pcid_enabled = (s.pcid_enabled != 0) :=
  ⟨rfl, rfl, rfl, rfl, rfl, rfl, rfl, rfl, rfl, rfl, rfl, rfl, rfl, rfl, rfl, rfl, rfl, rfl,
   rfl, rfl, rfl, rfl, rfl⟩

/-- Claim C8: the syscall control flow of `sys_asid_profiling`: `EINVAL` for
every action other than 0–3 and for actions 0 and 3 with a buffer smaller
than the respective userspace structure; actions 1 and 2 return 0; actions
0 and 3 return the byte size of the structure written
(`size_of::<AsidStatsUserspace>() = 160` resp.
`size_of::<AsidEfficiencyUserspace>() = 40`) when the user-memory writes
succeed. -/
theorem claim_C8_syscall_returns (action buffer_len : Nat) (write_ok : Bool) :
    ((action ≠ 0 ∧ action ≠ 1 ∧ action ≠ 2 ∧ action ≠ 3) →
      sys_asid_profiling action buffer_len write_ok = Except.error Errno.EINVAL) ∧
    (action = 0 → buffer_len < sizeOfAsidStatsUserspace →
      sys_asid_profiling action buffer_len write_ok = Except.error Errno.EINVAL) ∧
    (action = 3 → buffer_len < sizeOfAsidEfficiencyUserspace →
      sys_asid_profiling action buffer_len write_ok = Except.error Errno.EINVAL) ∧
    (action = 1 → sys_asid_profiling action buffer_len write_ok = Except.ok 0) ∧
    (action = 2 → sys_asid_profiling action buffer_len write_ok = Except.ok 0) ∧
    (action = 0 → sizeOfAsidStatsUserspace ≤ buffer_len → write_ok = true →
      sys_asid_profiling action buffer_len write_ok =
        Except.ok (sizeOfAsidStatsUserspace : Int)) ∧
    (action = 3 → sizeOfAsidEfficiencyUserspace ≤ buffer_len → write_ok = true →
      sys_asid_profiling action buffer_len write_ok =
        Except.ok (sizeOfAsidEfficiencyUserspace : Int)) := by
  refine ⟨?_, ?_, ?_, ?_, ?_, ?_, ?_⟩
  · intro ⟨h0, h1, h2, h3⟩
    obtain ⟨n, rfl⟩ : ∃ n, action = n + 4 := ⟨action - 4, by omega⟩
    rfl
  · intro h hlt
    subst h
    simp only [sys_asid_profiling, if_pos hlt]
  · intro h hlt
    subst h
    simp only [sys_asid_profiling, if_pos hlt]
  · intro h
    subst h
    rfl
  · intro h
    subst h
    rfl
  · intro h hle hw
    subst h
    subst hw
    simp [sys_asid_profiling, Nat.not_lt.mpr hle]
  · intro h hle hw
    subst h
    subst hw
    simp [sys_asid_profiling, Nat.not_lt.mpr hle]

/-- Witness for the claim C8 theorem: each of the seven cases applied at a
concrete input. -/
theorem claim_C8_syscall_returns_witness :
    sys_asid_profiling 7 0 true = Except.error Errno.EINVAL ∧
    sys_asid_profiling 0 100 true = Except.error Errno.EINVAL ∧
    sys_asid_profiling 3 39 true = Except.error Errno.EINVAL ∧
    sys_asid_profiling 1 0 false = Except.ok 0 ∧
    sys_asid_profiling 2 0 false = Except.ok 0 ∧
    sys_asid_profiling 0 160 true = Except.ok 160 ∧
    sys_asid_profiling 3 40 true = Except.ok 40 :=
  ⟨(claim_C8_syscall_returns 7 0 true).1 ⟨by decide, by decide, by decide, by decide⟩,
   (claim_C8_syscall_returns 0 100 true).2.1 rfl (by decide),
   (claim_C8_syscall_returns 3 39 true).2.2.1 rfl (by decide),
   (claim_C8_syscall_returns 1 0 false).2.2.2.1 rfl,
   (claim_C8_syscall_returns 2 0 false).2.2.2.2.1 rfl,
   (claim_C8_syscall_returns 0 160 true).2.2.2.2.2.1 rfl (by decide) rfl,
   (claim_C8_syscall_returns 3 40 true).2.2.2.2.2.2 rfl (by decide) rfl⟩

/-- Claim C9: the spec (scenario S1, `ASID_CAP = 8, ASID_MIN = 1`) requires
seven allocations to return `[1..7]`, and after `deallocate(3)` the next
`allocate()` to return `3` with `active_asids = 7`.  The embedded code
diverges: every one of the eight `allocate()` calls returns the sentinel
`8` (the scan looks for a set bit instead of a clear one), and after the
one deallocation `active_asids` wraps to `4294967295` instead of `7`. -/
theorem claim_C9_code_divergence :
    (runOps 8 (List.replicate 7 (AsidOp.alloc 0 0) ++ [AsidOp.dealloc 3 0, AsidOp.alloc 0 0])
        (AsidTrace.init 8)).rets = [8, 8, 8, 8, 8, 8, 8, 8] ∧
    (runOps 8 (List.replicate 7 (AsidOp.alloc 0 0) ++ [AsidOp.dealloc 3 0, AsidOp.alloc 0 0])
        (AsidTrace.init 8)).sys.stats.active_asids = 4294967295 := by
  decide

/-- Claim C10: the public `deallocate(asid)` for a non-sentinel `asid`
outside `[ASID_MIN, ASID_CAP)` (for example `0`) skips the manager — the
bitmap and the cursor are unchanged — yet still runs
`record_deallocation`, incrementing `deallocations_total` and decrementing
the `u32` gauge `active_asids` with wrap-around at `0`. -/
theorem claim_C10_deallocate_out_of_range (sys : AsidSystem) (asid time_cycles : Nat)
    (h1 : asid ≠ ASID_FLUSH_REQUIRED) (h2 : asid < ASID_MIN ∨ ASID_CAP ≤ asid) :
    (deallocate ASID_CAP asid time_cycles sys).manager = sys.manager ∧
    (deallocate ASID_CAP asid time_cycles sys).stats.deallocations_total =
      (sys.stats.deallocations_total + 1) % U64_MOD ∧
    (deallocate ASID_CAP asid time_cycles sys).stats.active_asids =
      (sys.stats.active_asids + U32_MOD - 1) % U32_MOD := by
  have hr : ¬ (ASID_MIN ≤ asid ∧ asid < ASID_CAP) := by
    have hmin : ASID_MIN = 1 := rfl
    have hcap : ASID_CAP = 4096 := rfl
    rcases h2 with h | h
    · intro hand
      omega
    · intro hand
      omega
  have h1c : asid ≠ ASID_CAP := h1
  unfold deallocate
  rw [if_neg h1c, if_neg hr]
  exact ⟨rfl, rfl, rfl⟩

/-- Witness for the claim C10 theorem at `asid = 0` from the initial
state. -/
theorem claim_C10_deallocate_out_of_range_witness :
    (0 : Nat) ≠ ASID_FLUSH_REQUIRED ∧
    (deallocate ASID_CAP 0 5 (AsidSystem.init ASID_CAP)).manager =
      (AsidSystem.init ASID_CAP).manager ∧
    (deallocate ASID_CAP 0 5 (AsidSystem.init ASID_CAP)).stats.deallocations_total =
      ((AsidSystem.init ASID_CAP).stats.deallocations_total + 1) % U64_MOD ∧
    (deallocate ASID_CAP 0 5 (AsidSystem.init ASID_CAP)).stats.active_asids =
      ((AsidSystem.init ASID_CAP).stats.active_asids + U32_MOD - 1) % U32_MOD :=
  ⟨by decide,
   claim_C10_deallocate_out_of_range (AsidSystem.init ASID_CAP) 0 5 (by decide)
     (Or.inl (by decide))⟩
